import Mathlib

/-!
Verification of the ComfyUI-RTX-Remix node pack.

This file gives a shallow embedding, in Lean 4, of the pure content of the
Python sources under `src/nodes/` (`common.py`, `utils.py`, `layers.py`,
`textures.py`, `ingestion.py`, `file.py`, `__init__.py`) and proves the
behavioural properties stated about them.

Modelling conventions:
* Python exceptions are modelled with `Except PyErr`; each exception class
  used by the code is a `PyErr` constructor.
* `requests` responses are modelled by `HttpResponse`; a call of
  `requests.get/post/...` that raises at transport level (connection refused,
  timeout) is modelled by an `Option` being `none`.
* External library functions whose internals the code never relies on
  (`pathlib.Path.as_posix`, `urllib.parse.unquote`, `re.match`,
  `pathlib.Path.stem`, image decoding) are abstracted as function parameters
  of the embedding; the code only composes them.
* Observable side effects (HTTP calls) are returned explicitly as `Effect`
  lists where a claim is about effects.
-/

/-- The exception classes raised by the embedded code paths. -/
inductive PyErr where
  | valueError (msg : String)
  | httpError (status : Nat) (msg : String)
  | fileNotFoundError (msg : String)
  | keyError (key : String)
  | jsonDecodeError
  | transportError
  deriving Repr, DecidableEq

/-- Externally observable side effects of a node invocation. -/
inductive Effect where
  | httpGet (url : String)
  | httpPost (url : String)
  | httpPut (url : String)
  | httpDelete (url : String)
  | fileWrite (path : String)
  | fileDelete (path : String)
  deriving Repr, DecidableEq

/-- `RemixContext = namedtuple("RemixContext", ["address", "port"])`
(src/nodes/common.py line 27). -/
structure RemixContext where
  address : String
  port : Nat
  deriving Repr, DecidableEq

/-! ### `common.py`: `ContextExecutionFuncWrapper`

The wrapper body is
`instance.context = kwargs.pop("context"); return (instance.context,) + func(instance, *args, **kwargs)`.
Keyword arguments are modelled as an association list over an arbitrary value
type `α`; `dict.pop` returns the value stored at the key together with the
remaining entries, or raises `KeyError` when the key is absent. -/

/-- Model of `kwargs.pop(key)`: the value at `key` and the remaining entries
(`none` models the `KeyError` raised on a missing key). -/
def popKwarg (key : String) : List (String × α) → Option (α × List (String × α))
  | [] => none
  | (k, v) :: rest =>
      if k = key then some (v, rest)
      else (popKwarg key rest).map (fun r => (r.1, (k, v) :: r.2))

/-- Model of `dict` lookup for association-list kwargs. -/
def lookupKwarg (key : String) : List (String × α) → Option α
  | [] => none
  | (k, v) :: rest => if k = key then some v else lookupKwarg key rest

/-- `ContextExecutionFuncWrapper.__get__.wrapper` (src/nodes/common.py lines
52-58): pop `"context"` from the keyword arguments, call the underlying
execution function on the remaining arguments, and prepend the popped context
to the returned tuple.  The underlying function `f` maps remaining kwargs to
the result tuple; tuples are modelled as lists over the value type. -/
def contextExecutionFuncWrapper (f : List (String × α) → List α)
    (kwargs : List (String × α)) : Option (List α) :=
  (popKwarg "context" kwargs).map (fun r => r.1 :: f r.2)

theorem lookupKwarg_of_popKwarg {α : Type} (key : String)
    (kwargs rest : List (String × α)) (c : α)
    (h : popKwarg key kwargs = some (c, rest)) :
    lookupKwarg key kwargs = some c := by
  induction kwargs generalizing rest with
  | nil => simp [popKwarg] at h
  | cons hd tl ih =>
    obtain ⟨k, v⟩ := hd
    by_cases hk : k = key
    · simp [popKwarg, hk] at h
      simp [lookupKwarg, hk, h.1]
    · rw [popKwarg, if_neg hk, Option.map_eq_some'] at h
      obtain ⟨r, hr, hpair⟩ := h
      have hv : r.1 = c := congrArg Prod.fst hpair
      simp only [lookupKwarg, if_neg hk]
      exact ih r.2 (by rw [hr, ← hv])

/-- C1. For every context-wrapped node, invoking the wrapped execution
function with a `context` keyword argument returns a tuple whose first element
is exactly that same context value (the very value looked up in the kwargs,
pass-through rather than reconstruction), followed by the elements returned by
the underlying execution function applied to the remaining arguments. -/
theorem c1_context_passthrough {α : Type} (f : List (String × α) → List α)
    (kwargs rest : List (String × α)) (c : α)
    (h : popKwarg "context" kwargs = some (c, rest)) :
    contextExecutionFuncWrapper f kwargs = some (c :: f rest) ∧
    lookupKwarg "context" kwargs = some c := by
  constructor
  · simp [contextExecutionFuncWrapper, h]
  · exact lookupKwarg_of_popKwarg "context" kwargs rest c h

/-- C1 witness: concrete invocation with kwargs
`[("context", 7), ("layer_id", 3)]` and an execution function returning a
one-element tuple. -/
theorem c1_context_passthrough_witness :
    contextExecutionFuncWrapper (fun kw => [(lookupKwarg "layer_id" kw).getD 0])
      [("context", 7), ("layer_id", 3)] = some [7, 3] ∧
    lookupKwarg "context" [("context", (7 : Nat)), ("layer_id", 3)] = some 7 := by
  have h := c1_context_passthrough
    (fun kw => [(lookupKwarg "layer_id" kw).getD 0])
    [("context", (7 : Nat)), ("layer_id", 3)] [("layer_id", 3)] 7 (by decide)
  exact ⟨by rw [h.1]; decide, h.2⟩

/-! ### `utils.py`: `check_response_status_code`

`check_response_status_code` calls `response.raise_for_status()`; on
`requests.exceptions.HTTPError` it parses the JSON body with
`response.json()`, logs it with `_logger.error`, and re-raises the original
`HTTPError`.  `requests.Response.raise_for_status` raises only for statuses in
[400, 600), with the message
`"{status} Client Error: {reason} for url: {url}"` (4xx) or
`"{status} Server Error: {reason} for url: {url}"` (5xx); the error object
carries the response (hence the status).  `response.json()` on a body that is
not valid JSON raises a decode error, which then escapes instead of the
`HTTPError`. -/

/-- Parsed JSON body of a response; the only field the code ever reads from an
error body is the conventional `detail` field. -/
structure JsonBody where
  detail : Option String
  deriving Repr, DecidableEq

/-- A `requests.Response`: status code, reason phrase, request URL, and the
body (`none` when the body is not valid JSON, making `response.json()`
raise). -/
structure HttpResponse where
  status : Nat
  reason : String
  url : String
  body : Option JsonBody
  deriving Repr, DecidableEq

/-- The message `requests.Response.raise_for_status` builds for a 4xx/5xx
status (`http_error_msg` in requests' `models.py`). -/
def httpErrorMessage (r : HttpResponse) : String :=
  if 400 ≤ r.status ∧ r.status < 500 then
    toString r.status ++ " Client Error: " ++ r.reason ++ " for url: " ++ r.url
  else
    toString r.status ++ " Server Error: " ++ r.reason ++ " for url: " ++ r.url

/-- `requests.Response.raise_for_status`: raises `HTTPError` exactly for
statuses in [400, 600), otherwise returns with no effect. -/
def raise_for_status (r : HttpResponse) : Except PyErr Unit :=
  if (400 ≤ r.status ∧ r.status < 500) ∨ (500 ≤ r.status ∧ r.status < 600) then
    .error (.httpError r.status (httpErrorMessage r))
  else .ok ()

/-- `check_response_status_code` (src/nodes/utils.py lines 50-58): try
`raise_for_status`; on `HTTPError`, call `response.json()` (whose own decode
error escapes if the body is not JSON), log the parsed body, and re-raise the
original `HTTPError` unchanged. -/
def check_response_status_code (r : HttpResponse) : Except PyErr Unit :=
  match raise_for_status r with
  | .ok _ => .ok ()
  | .error err =>
      match r.body with
      | none => .error .jsonDecodeError
      | some _ => .error err

/-- C6 counterexample: on a 404 response whose JSON body is
`{"detail": "layer not found"}`, the raised error's message is requests'
standard status line, not the server's `detail` string: the detail is only
logged, never attached to the error.  (A 304 response, although non-2xx, does
not fail at all.) -/
theorem c6_counterexample_detail_not_in_error :
    check_response_status_code
        ⟨404, "Not Found", "http://127.0.0.1:8011/stagecraft/layers",
          some ⟨some "layer not found"⟩⟩ =
      .error (.httpError 404
        "404 Client Error: Not Found for url: http://127.0.0.1:8011/stagecraft/layers") ∧
    ("404 Client Error: Not Found for url: http://127.0.0.1:8011/stagecraft/layers" ≠
      "layer not found") ∧
    check_response_status_code
        ⟨304, "Not Modified", "http://127.0.0.1:8011/stagecraft/layers", none⟩ = .ok () := by
  refine ⟨rfl, by decide, rfl⟩

/-- C6 amended: for a response with status outside [400, 600) the routine
returns with no observable effect; for a 4xx/5xx response whose body is valid
JSON it fails with the `HTTPError` raised by the HTTP library, carrying the
HTTP status code and the library's standard status-line message — the server's
structured `detail` field is only logged, not attached to the error. -/
theorem c6_amended_status_carried_detail_logged (r : HttpResponse) :
    (r.status < 400 ∨ 600 ≤ r.status → check_response_status_code r = .ok ()) ∧
    (∀ b, 400 ≤ r.status → r.status < 600 → r.body = some b →
      check_response_status_code r = .error (.httpError r.status (httpErrorMessage r))) := by
  constructor
  · intro h
    have hn : ¬ ((400 ≤ r.status ∧ r.status < 500) ∨ (500 ≤ r.status ∧ r.status < 600)) := by
      omega
    unfold check_response_status_code raise_for_status
    rw [if_neg hn]
  · intro b h4 h6 hb
    have hp : (400 ≤ r.status ∧ r.status < 500) ∨ (500 ≤ r.status ∧ r.status < 600) := by
      omega
    unfold check_response_status_code raise_for_status
    rw [if_pos hp, hb]

/-- C6 amended witness: concrete evaluations at a 200 response and at the 404
response with body detail `"layer not found"`. -/
theorem c6_amended_witness :
    check_response_status_code ⟨200, "OK", "http://127.0.0.1:8011/stagecraft/layers", none⟩ =
      .ok () ∧
    check_response_status_code
        ⟨404, "Not Found", "http://127.0.0.1:8011/stagecraft/layers",
          some ⟨some "layer not found"⟩⟩ =
      .error (.httpError 404
        (httpErrorMessage
          ⟨404, "Not Found", "http://127.0.0.1:8011/stagecraft/layers",
            some ⟨some "layer not found"⟩⟩)) :=
  ⟨(c6_amended_status_carried_detail_logged
      ⟨200, "OK", "http://127.0.0.1:8011/stagecraft/layers", none⟩).1 (Or.inl (by decide)),
   (c6_amended_status_carried_detail_logged
      ⟨404, "Not Found", "http://127.0.0.1:8011/stagecraft/layers",
        some ⟨some "layer not found"⟩⟩).2 ⟨some "layer not found"⟩
      (by decide) (by decide) rfl⟩

/-! ### `layers.py`: `GetLayers.execute`

The loop (src/nodes/layers.py lines 345-360) pops layers from a deque seeded
with the response's `layers` array; normalizes the id with
`posix(unquote(layer["layer_id"]))`; skips ids already seen; appends the id
and the stringified type to the two output lists when the optional regex
filter is absent or matches; and, when `sublayers` is set, appends the
layer's `children` to the back of the deque.  The path normalization
`posix ∘ unquote` (pathlib + urllib) and the compiled-regex test `re.match`
are abstracted as the parameters `norm` and the function inside the optional
filter; `None` (or an empty string, both falsy in
`if not regex_filter or ...`) is the `none` filter. -/

/-- A record of the layer-listing response's `layers` array: the fields
`layer_id`, `layer_type` (nullable) and the nested `children` array that the
loop reads. -/
inductive LayerRec : Type where
  | mk (layerId : String) (layerType : Option String) (children : List LayerRec)

/-- The `layer_id` field. -/
def LayerRec.layerId : LayerRec → String
  | .mk i _ _ => i

/-- The `layer_type` field (`null` is `none`). -/
def LayerRec.layerType : LayerRec → Option String
  | .mk _ t _ => t

/-- The `children` field. -/
def LayerRec.children : LayerRec → List LayerRec
  | .mk _ _ c => c

mutual

/-- Number of layer records in a tree (termination measure for the deque
loop). -/
def layerSize : LayerRec → Nat
  | .mk _ _ cs => 1 + layersSize cs

/-- Number of layer records in a forest. -/
def layersSize : List LayerRec → Nat
  | [] => 0
  | c :: cs => layerSize c + layersSize cs

end

theorem layerSize_eq_children (l : LayerRec) :
    layerSize l = 1 + layersSize l.children := by
  cases l
  rfl

theorem layersSize_append (a b : List LayerRec) :
    layersSize (a ++ b) = layersSize a + layersSize b := by
  induction a with
  | nil => simp [layersSize]
  | cons x xs ih =>
      show layersSize (x :: (xs ++ b)) = _
      simp only [layersSize]
      rw [ih]
      omega

/-- `stringify_layer_type` (src/nodes/layers.py lines 49-52): `None` becomes
the string `"None"`, any other value is returned unchanged. -/
def stringify_layer_type : Option String → String
  | none => "None"
  | some t => t

/-- The inclusion test `not regex_filter or re.match(regex_filter, layer_id)`:
`none` models a falsy (`None` or empty) `regex_filter`, `some f` a supplied
regex whose `re.match` test is the function `f`. -/
def optMatch (flt : Option (String → Bool)) (s : String) : Bool :=
  match flt with
  | none => true
  | some f => f s

/-- The `while layers_to_process` loop of `GetLayers.execute`
(src/nodes/layers.py lines 348-358), with the two parallel output lists fused
into one list of `(layer_id, layer_type)` pairs (the code appends to both
lists under the same condition in the same iteration).  `seen` is the
accumulated dedup set, in insertion order. -/
def getLayersLoop (norm : String → String) (flt : Option (String → Bool))
    (sublayers : Bool) :
    List LayerRec → List String → List (String × String)
  | [], _ => []
  | l :: queue, seen =>
      let lid := norm l.layerId
      if lid ∈ seen then
        getLayersLoop norm flt sublayers queue seen
      else
        let entry := if optMatch flt lid then [(lid, stringify_layer_type l.layerType)] else []
        if sublayers then
          entry ++ getLayersLoop norm flt sublayers (queue ++ l.children) (lid :: seen)
        else
          entry ++ getLayersLoop norm flt sublayers queue (lid :: seen)
termination_by q _ => layersSize q
decreasing_by
  · have h := layerSize_eq_children l
    simp only [layersSize]
    omega
  · have h := layerSize_eq_children l
    have ha := layersSize_append queue l.children
    simp only [layersSize]
    omega
  · have h := layerSize_eq_children l
    simp only [layersSize]
    omega

/-- The sequence of normalized ids in deque pop order (duplicates included:
a duplicate is popped, recorded here, and then skipped by the loop without
enqueueing its children). -/
def getLayersDequeued (norm : String → String) (sublayers : Bool) :
    List LayerRec → List String → List String
  | [], _ => []
  | l :: queue, seen =>
      let lid := norm l.layerId
      if lid ∈ seen then
        lid :: getLayersDequeued norm sublayers queue seen
      else
        if sublayers then
          lid :: getLayersDequeued norm sublayers (queue ++ l.children) (lid :: seen)
        else
          lid :: getLayersDequeued norm sublayers queue (lid :: seen)
termination_by q _ => layersSize q
decreasing_by
  · have h := layerSize_eq_children l
    simp only [layersSize]
    omega
  · have h := layerSize_eq_children l
    have ha := layersSize_append queue l.children
    simp only [layersSize]
    omega
  · have h := layerSize_eq_children l
    simp only [layersSize]
    omega

/-- First-occurrence-wins deduplication of a list of ids, relative to an
initial seen set. -/
def dedupFirstWins : List String → List String → List String
  | _, [] => []
  | seen, x :: xs =>
      if x ∈ seen then dedupFirstWins seen xs
      else x :: dedupFirstWins (x :: seen) xs

/-- The loop specialised to `sublayers = false`, written without ever
inspecting a `children` field: only the immediate entries of the initial
queue are deduplicated and filtered. -/
def immediateEntries (norm : String → String) (flt : Option (String → Bool)) :
    List LayerRec → List String → List (String × String)
  | [], _ => []
  | l :: rest, seen =>
      let lid := norm l.layerId
      if lid ∈ seen then
        immediateEntries norm flt rest seen
      else
        (if optMatch flt lid then [(lid, stringify_layer_type l.layerType)] else []) ++
        immediateEntries norm flt rest (lid :: seen)

/-- `GetLayers.execute` after the HTTP call and status check
(src/nodes/layers.py lines 339-360): `layers` is the parsed `layers` field of
the response (`.get("layers", [])`, so an absent field is the empty list).
Raises `ValueError` on an empty list when `crash_if_not_exist` is set,
returns `([], [], False)` on an empty list otherwise, and otherwise runs the
deque loop and returns `(layer_ids, layer_types, bool(layer_ids))`. -/
def GetLayers.execute (norm : String → String) (flt : Option (String → Bool))
    (sublayers crash_if_not_exist : Bool) (layers : List LayerRec) :
    Except PyErr (List String × List String × Bool) :=
  if layers.isEmpty ∧ crash_if_not_exist then
    .error (.valueError "No layers found. Please check the parameters of your node")
  else if layers.isEmpty then
    .ok ([], [], false)
  else
    let pairs := getLayersLoop norm flt sublayers layers []
    .ok (pairs.map Prod.fst, pairs.map Prod.snd, !(pairs.map Prod.fst).isEmpty)

theorem getLayersLoop_nil (norm : String → String) (flt : Option (String → Bool))
    (sub : Bool) (seen : List String) :
    getLayersLoop norm flt sub [] seen = [] := by
  simp [getLayersLoop]

theorem getLayersLoop_cons_seen (norm : String → String) (flt : Option (String → Bool))
    (sub : Bool) (l : LayerRec) (queue : List LayerRec) (seen : List String)
    (hm : norm l.layerId ∈ seen) :
    getLayersLoop norm flt sub (l :: queue) seen = getLayersLoop norm flt sub queue seen := by
  simp [getLayersLoop, hm]

theorem getLayersLoop_cons_new_true (norm : String → String) (flt : Option (String → Bool))
    (l : LayerRec) (queue : List LayerRec) (seen : List String)
    (hm : norm l.layerId ∉ seen) :
    getLayersLoop norm flt true (l :: queue) seen =
      (if optMatch flt (norm l.layerId) then
        [(norm l.layerId, stringify_layer_type l.layerType)] else []) ++
      getLayersLoop norm flt true (queue ++ l.children) (norm l.layerId :: seen) := by
  simp [getLayersLoop, hm]

theorem getLayersLoop_cons_new_false (norm : String → String) (flt : Option (String → Bool))
    (l : LayerRec) (queue : List LayerRec) (seen : List String)
    (hm : norm l.layerId ∉ seen) :
    getLayersLoop norm flt false (l :: queue) seen =
      (if optMatch flt (norm l.layerId) then
        [(norm l.layerId, stringify_layer_type l.layerType)] else []) ++
      getLayersLoop norm flt false queue (norm l.layerId :: seen) := by
  simp [getLayersLoop, hm]

theorem getLayersDequeued_nil (norm : String → String) (sub : Bool) (seen : List String) :
    getLayersDequeued norm sub [] seen = [] := by
  simp [getLayersDequeued]

theorem getLayersDequeued_cons_seen (norm : String → String) (sub : Bool)
    (l : LayerRec) (queue : List LayerRec) (seen : List String)
    (hm : norm l.layerId ∈ seen) :
    getLayersDequeued norm sub (l :: queue) seen =
      norm l.layerId :: getLayersDequeued norm sub queue seen := by
  simp [getLayersDequeued, hm]

theorem getLayersDequeued_cons_new_true (norm : String → String)
    (l : LayerRec) (queue : List LayerRec) (seen : List String)
    (hm : norm l.layerId ∉ seen) :
    getLayersDequeued norm true (l :: queue) seen =
      norm l.layerId ::
        getLayersDequeued norm true (queue ++ l.children) (norm l.layerId :: seen) := by
  simp [getLayersDequeued, hm]

theorem getLayersDequeued_cons_new_false (norm : String → String)
    (l : LayerRec) (queue : List LayerRec) (seen : List String)
    (hm : norm l.layerId ∉ seen) :
    getLayersDequeued norm false (l :: queue) seen =
      norm l.layerId :: getLayersDequeued norm false queue (norm l.layerId :: seen) := by
  simp [getLayersDequeued, hm]

theorem getLayersLoop_false_eq_immediate (norm : String → String)
    (flt : Option (String → Bool)) :
    ∀ (queue : List LayerRec) (seen : List String),
    getLayersLoop norm flt false queue seen = immediateEntries norm flt queue seen := by
  intro queue
  induction queue with
  | nil => intro seen; simp [getLayersLoop_nil, immediateEntries]
  | cons l rest ih =>
      intro seen
      by_cases hm : norm l.layerId ∈ seen
      · rw [getLayersLoop_cons_seen norm flt false l rest seen hm]
        simp [immediateEntries, hm, ih]
      · rw [getLayersLoop_cons_new_false norm flt l rest seen hm]
        simp [immediateEntries, hm, ih]

theorem getLayersLoop_fresh_nodup (norm : String → String) (flt : Option (String → Bool))
    (sub : Bool) :
    ∀ (queue : List LayerRec) (seen : List String),
    (∀ x ∈ (getLayersLoop norm flt sub queue seen).map Prod.fst, x ∉ seen) ∧
    ((getLayersLoop norm flt sub queue seen).map Prod.fst).Nodup := by
  intro queue seen
  induction queue, seen using getLayersLoop.induct norm flt sub with
  | case1 seen => simp [getLayersLoop_nil]
  | case2 l queue seen lid hm ih =>
      rw [getLayersLoop_cons_seen norm flt sub l queue seen hm]
      exact ih
  | case3 l queue seen lid hm hs ih =>
      obtain ⟨ihFresh, ihNodup⟩ := ih
      subst hs
      rw [getLayersLoop_cons_new_true norm flt l queue seen hm]
      by_cases hmt : optMatch flt (norm l.layerId) = true
      · simp only [hmt, if_true, List.map_append, List.map_cons, List.map_nil,
          List.singleton_append, List.nodup_cons, List.mem_cons]
        refine ⟨?_, ?_, ihNodup⟩
        · intro x hx
          rcases hx with hx | hx
          · subst hx; exact hm
          · intro hxs
            exact ihFresh x hx (List.mem_cons_of_mem _ hxs)
        · intro hmem
          exact ihFresh _ hmem (List.mem_cons_self _ _)
      · simp only [if_neg hmt, List.nil_append]
        refine ⟨?_, ihNodup⟩
        intro x hx hxs
        exact ihFresh x hx (List.mem_cons_of_mem _ hxs)
  | case4 l queue seen lid hm hs ih =>
      obtain ⟨ihFresh, ihNodup⟩ := ih
      have hs' : sub = false := by
        cases sub
        · rfl
        · exact absurd rfl hs
      subst hs'
      rw [getLayersLoop_cons_new_false norm flt l queue seen hm]
      by_cases hmt : optMatch flt (norm l.layerId) = true
      · simp only [hmt, if_true, List.map_append, List.map_cons, List.map_nil,
          List.singleton_append, List.nodup_cons, List.mem_cons]
        refine ⟨?_, ?_, ihNodup⟩
        · intro x hx
          rcases hx with hx | hx
          · subst hx; exact hm
          · intro hxs
            exact ihFresh x hx (List.mem_cons_of_mem _ hxs)
        · intro hmem
          exact ihFresh _ hmem (List.mem_cons_self _ _)
      · simp only [if_neg hmt, List.nil_append]
        refine ⟨?_, ihNodup⟩
        intro x hx hxs
        exact ihFresh x hx (List.mem_cons_of_mem _ hxs)

theorem getLayersLoop_fst_eq_dedup (norm : String → String) (flt : Option (String → Bool))
    (sub : Bool) :
    ∀ (queue : List LayerRec) (seen : List String),
    (getLayersLoop norm flt sub queue seen).map Prod.fst =
      (dedupFirstWins seen (getLayersDequeued norm sub queue seen)).filter (optMatch flt) := by
  intro queue seen
  induction queue, seen using getLayersLoop.induct norm flt sub with
  | case1 seen =>
      simp [getLayersLoop_nil, getLayersDequeued_nil, dedupFirstWins]
  | case2 l queue seen lid hm ih =>
      rw [getLayersLoop_cons_seen norm flt sub l queue seen hm,
        getLayersDequeued_cons_seen norm sub l queue seen hm]
      simp only [dedupFirstWins, if_pos hm]
      exact ih
  | case3 l queue seen lid hm hs ih =>
      subst hs
      rw [getLayersLoop_cons_new_true norm flt l queue seen hm,
        getLayersDequeued_cons_new_true norm l queue seen hm]
      simp only [dedupFirstWins, if_neg hm, List.filter_cons]
      by_cases hmt : optMatch flt (norm l.layerId) = true
      · simp [hmt, ih]
      · simp [hmt, ih]
  | case4 l queue seen lid hm hs ih =>
      have hs' : sub = false := by
        cases sub
        · rfl
        · exact absurd rfl hs
      subst hs'
      rw [getLayersLoop_cons_new_false norm flt l queue seen hm,
        getLayersDequeued_cons_new_false norm l queue seen hm]
      simp only [dedupFirstWins, if_neg hm, List.filter_cons]
      by_cases hmt : optMatch flt (norm l.layerId) = true
      · simp [hmt, ih]
      · simp [hmt, ih]

theorem getLayersLoop_filter_eq (norm : String → String) (f : String → Bool) (sub : Bool) :
    ∀ (queue : List LayerRec) (seen : List String),
    getLayersLoop norm (some f) sub queue seen =
      (getLayersLoop norm none sub queue seen).filter (fun p => f p.1) := by
  intro queue seen
  induction queue, seen using getLayersLoop.induct norm (some f) sub with
  | case1 seen => simp [getLayersLoop_nil]
  | case2 l queue seen lid hm ih =>
      rw [getLayersLoop_cons_seen norm (some f) sub l queue seen hm,
        getLayersLoop_cons_seen norm none sub l queue seen hm]
      exact ih
  | case3 l queue seen lid hm hs ih =>
      subst hs
      rw [getLayersLoop_cons_new_true norm (some f) l queue seen hm,
        getLayersLoop_cons_new_true norm none l queue seen hm]
      rw [List.filter_append]
      by_cases hf : f (norm l.layerId) = true
      · simp [optMatch, hf, ih]
      · simp [optMatch, hf, ih]
  | case4 l queue seen lid hm hs ih =>
      have hs' : sub = false := by
        cases sub
        · rfl
        · exact absurd rfl hs
      subst hs'
      rw [getLayersLoop_cons_new_false norm (some f) l queue seen hm,
        getLayersLoop_cons_new_false norm none l queue seen hm]
      rw [List.filter_append]
      by_cases hf : f (norm l.layerId) = true
      · simp [optMatch, hf, ih]
      · simp [optMatch, hf, ih]

theorem map_fst_filter_fst (f : String → Bool) :
    ∀ L : List (String × String),
    (L.filter (fun p => f p.1)).map Prod.fst = (L.map Prod.fst).filter f := by
  intro L
  induction L with
  | nil => rfl
  | cons p ps ih =>
      by_cases hf : f p.1 = true
      · simp [List.filter_cons, hf, ih]
      · simp [List.filter_cons, hf, ih]

/-- C3. The layer-listing operation traverses the returned nested layer
structure breadth-first from the returned roots (a deque seeded with the
response's roots, children appended at the back), enqueues children only when
`sublayers` is true — with `sublayers = false` the result is that of a
function that never inspects any `children` array — deduplicates by
normalized path with the first occurrence winning, and emits each unique
normalized path exactly once (`Nodup`), in breadth-first discovery order
(the first-occurrence dedup of the deque pop order, restricted to the
filter). -/
theorem c3_bfs_dedup_discovery_order (norm : String → String)
    (flt : Option (String → Bool)) (sub crash : Bool) (l : LayerRec)
    (rest : List LayerRec) :
    GetLayers.execute norm flt sub crash (l :: rest) =
      .ok ((getLayersLoop norm flt sub (l :: rest) []).map Prod.fst,
        (getLayersLoop norm flt sub (l :: rest) []).map Prod.snd,
        !((getLayersLoop norm flt sub (l :: rest) []).map Prod.fst).isEmpty) ∧
    getLayersLoop norm flt false (l :: rest) [] = immediateEntries norm flt (l :: rest) [] ∧
    ((getLayersLoop norm flt sub (l :: rest) []).map Prod.fst).Nodup ∧
    (getLayersLoop norm flt sub (l :: rest) []).map Prod.fst =
      (dedupFirstWins [] (getLayersDequeued norm sub (l :: rest) [])).filter (optMatch flt) := by
  refine ⟨?_, getLayersLoop_false_eq_immediate norm flt (l :: rest) [],
    (getLayersLoop_fresh_nodup norm flt sub (l :: rest) []).2,
    getLayersLoop_fst_eq_dedup norm flt sub (l :: rest) []⟩
  simp [GetLayers.execute]

/-- C4. With a regex filter supplied, the layer-listing loop produces exactly
the no-filter result restricted to matching normalized paths: non-matching
layers are excluded from both output lists, while the traversal itself —
including the enqueueing of children of filtered-out layers — is that of the
unfiltered loop (the traversal functions take no filter parameter). -/
theorem c4_filter_excludes_but_still_traverses (norm : String → String)
    (f : String → Bool) (sub : Bool) (layers : List LayerRec) :
    getLayersLoop norm (some f) sub layers [] =
      (getLayersLoop norm none sub layers []).filter (fun p => f p.1) ∧
    (getLayersLoop norm (some f) sub layers []).map Prod.fst =
      ((getLayersLoop norm none sub layers []).map Prod.fst).filter f := by
  refine ⟨getLayersLoop_filter_eq norm f sub layers [], ?_⟩
  rw [getLayersLoop_filter_eq norm f sub layers []]
  exact map_fst_filter_fst f (getLayersLoop norm none sub layers [])

/-- C5. When the parsed `layers` array of the layer-listing response is empty:
with `crash_if_not_exist = true` the operation raises the `ValueError`
empty-result error; with the flag false it returns exactly
`([], [], False)`. -/
theorem c5_empty_result_policy (norm : String → String)
    (flt : Option (String → Bool)) (sub : Bool) :
    GetLayers.execute norm flt sub true [] =
      .error (.valueError "No layers found. Please check the parameters of your node") ∧
    GetLayers.execute norm flt sub false [] = .ok ([], [], false) := by
  constructor
  · simp [GetLayers.execute]
  · simp [GetLayers.execute]

/-! ### `layers.py` / `textures.py`: type-validation helpers

`validate_layer_types` (src/nodes/layers.py lines 55-67) fetches
`stagecraft/layers/types`, builds `set(json.get("layer_types", []))`, adds the
sentinel `NONE = "None"` to the set, and raises `ValueError` at the first
caller-supplied type not in the set, with a message naming the offending value
and joining the valid set.  `validate_texture_types` (src/nodes/textures.py
lines 50-61) does the same against `stagecraft/textures/types` and the
`texture_types` field but adds no sentinel.  Both are modelled after the HTTP
fetch: the parameter `serverTypes` is the parsed type list of the server's
response.  A Python `set` is modelled as a list with set membership; its
unspecified iteration order is fixed to insertion order for the joined
message. -/

/-- `NONE = "None"` (src/nodes/layers.py line 35). -/
def NONE : String := "None"

/-- First element of the second list not contained in `valid` (the loop
raises at the first offending value). -/
def firstNotIn (valid : List String) : List String → Option String
  | [] => none
  | t :: ts => if t ∈ valid then firstNotIn valid ts else some t

/-- The `ValueError` message f-string of both validation helpers: `kind` is
`"layer"` or `"texture"`. -/
def wrongTypeMsg (kind wrong : String) (supported : List String) : String :=
  "Wrong " ++ kind ++ " type value " ++ wrong ++ ". Only those values are supported: " ++
    String.intercalate "," supported

/-- `set(... "layer_types" ...)` with `NONE` added
(src/nodes/layers.py lines 59-62). -/
def validLayerTypeSet (serverTypes : List String) : List String :=
  serverTypes ++ (if NONE ∈ serverTypes then [] else [NONE])

/-- `validate_layer_types` after the HTTP fetch: raise `ValueError` at the
first supplied type outside the server set plus the sentinel. -/
def validate_layer_types (layer_types serverTypes : List String) : Except PyErr Unit :=
  match firstNotIn (validLayerTypeSet serverTypes) layer_types with
  | none => .ok ()
  | some w => .error (.valueError (wrongTypeMsg "layer" w (validLayerTypeSet serverTypes)))

/-- `validate_texture_types` after the HTTP fetch: raise `ValueError` at the
first supplied type outside the server set; no sentinel is added. -/
def validate_texture_types (texture_types serverTypes : List String) : Except PyErr Unit :=
  match firstNotIn serverTypes texture_types with
  | none => .ok ()
  | some w => .error (.valueError (wrongTypeMsg "texture" w serverTypes))

theorem mem_validLayerTypeSet (s : List String) (x : String) :
    x ∈ validLayerTypeSet s ↔ x ∈ s ∨ x = NONE := by
  by_cases h : NONE ∈ s
  · simp only [validLayerTypeSet, if_pos h, List.append_nil]
    constructor
    · exact Or.inl
    · rintro (hx | hx)
      · exact hx
      · exact hx ▸ h
  · simp [validLayerTypeSet, if_neg h, List.mem_append]

theorem firstNotIn_eq_some (valid : List String) :
    ∀ (ts : List String) (w : String), firstNotIn valid ts = some w → w ∉ valid ∧ w ∈ ts := by
  intro ts
  induction ts with
  | nil => intro w h; simp [firstNotIn] at h
  | cons t ts ih =>
      intro w h
      by_cases hm : t ∈ valid
      · simp only [firstNotIn, if_pos hm] at h
        obtain ⟨h1, h2⟩ := ih w h
        exact ⟨h1, List.mem_cons_of_mem _ h2⟩
      · simp only [firstNotIn, if_neg hm, Option.some.injEq] at h
        subst h
        exact ⟨hm, List.mem_cons_self _ _⟩

theorem firstNotIn_eq_none (valid : List String) :
    ∀ ts : List String, (∀ t ∈ ts, t ∈ valid) → firstNotIn valid ts = none := by
  intro ts
  induction ts with
  | nil => intro _; rfl
  | cons t ts ih =>
      intro h
      have hm : t ∈ valid := h t (List.mem_cons_self _ _)
      simp only [firstNotIn, if_pos hm]
      exact ih (fun x hx => h x (List.mem_cons_of_mem _ hx))

/-- C7 counterexample: the texture-type helper has no sentinel handling — with
the server set `{"DIFFUSE", "NORMAL_OGL"}`, validating `["None"]` fails naming
`"None"`, while the layer-type helper accepts the sentinel against the same
set.  This falsifies the claim that in *both* helpers the sentinel is always
implicitly treated as valid. -/
theorem c7_counterexample_texture_sentinel_rejected :
    validate_texture_types ["None"] ["DIFFUSE", "NORMAL_OGL"] =
      .error (.valueError (wrongTypeMsg "texture" "None" ["DIFFUSE", "NORMAL_OGL"])) ∧
    validate_layer_types ["None"] ["DIFFUSE", "NORMAL_OGL"] = .ok () := by
  constructor
  · rfl
  · rfl

/-- C7 amended: both helpers fail with a `ValueError` naming the first
offending caller-supplied type not in their valid set and joining that valid
set into the message; the sentinel `"None"` is implicitly valid — never
consulted against the server's set — in the layer-type helper only, while the
texture-type helper validates every supplied string, the sentinel included,
against the server's set alone. -/
theorem c7_amended_first_offender_named (serverTypes lts good : List String) (w : String) :
    (firstNotIn (validLayerTypeSet serverTypes) lts = some w →
      validate_layer_types lts serverTypes =
        .error (.valueError (wrongTypeMsg "layer" w (validLayerTypeSet serverTypes))) ∧
      w ∉ serverTypes ∧ w ≠ NONE ∧ w ∈ lts) ∧
    (firstNotIn serverTypes lts = some w →
      validate_texture_types lts serverTypes =
        .error (.valueError (wrongTypeMsg "texture" w serverTypes)) ∧
      w ∉ serverTypes ∧ w ∈ lts) ∧
    ((∀ t ∈ good, t ∈ serverTypes ∨ t = NONE) →
      validate_layer_types good serverTypes = .ok ()) := by
  refine ⟨?_, ?_, ?_⟩
  · intro h
    obtain ⟨hw, hmem⟩ := firstNotIn_eq_some _ lts w h
    rw [mem_validLayerTypeSet] at hw
    push_neg at hw
    refine ⟨?_, hw.1, hw.2, hmem⟩
    simp only [validate_layer_types, h]
  · intro h
    obtain ⟨hw, hmem⟩ := firstNotIn_eq_some _ lts w h
    refine ⟨?_, hw, hmem⟩
    simp only [validate_texture_types, h]
  · intro h
    have hall : ∀ t ∈ good, t ∈ validLayerTypeSet serverTypes := by
      intro t ht
      rw [mem_validLayerTypeSet]
      exact h t ht
    simp only [validate_layer_types, firstNotIn_eq_none _ good hall]

/-- C7 amended witness: server set `["DIFFUSE", "NORMAL_OGL"]`, input
`["DIFFUSE", "METALLIC"]` fails in both helpers naming `"METALLIC"`, and
`["DIFFUSE", "None"]` passes the layer-type helper. -/
theorem c7_amended_witness :
    validate_layer_types ["DIFFUSE", "METALLIC"] ["DIFFUSE", "NORMAL_OGL"] =
      .error (.valueError
        (wrongTypeMsg "layer" "METALLIC" (validLayerTypeSet ["DIFFUSE", "NORMAL_OGL"]))) ∧
    validate_texture_types ["DIFFUSE", "METALLIC"] ["DIFFUSE", "NORMAL_OGL"] =
      .error (.valueError (wrongTypeMsg "texture" "METALLIC" ["DIFFUSE", "NORMAL_OGL"])) ∧
    validate_layer_types ["DIFFUSE", "None"] ["DIFFUSE", "NORMAL_OGL"] = .ok () := by
  have h := c7_amended_first_offender_named ["DIFFUSE", "NORMAL_OGL"]
    ["DIFFUSE", "METALLIC"] ["DIFFUSE", "None"] "METALLIC"
  exact ⟨(h.1 (by decide)).1, (h.2.1 (by decide)).1, h.2.2 (by decide)⟩

/-! ### `textures.py`: `TextureTypeToUSDAttribute` -/

/-- `TextureTypeToUSDAttribute.get_attr_from_texture_type`
(src/nodes/textures.py lines 330-349) after the HTTP call and status check:
`asset_paths` is the response's `asset_paths` field (`none` when absent, read
with `.get("asset_paths", [])`).  Disabled, the node returns `("",)`; with an
empty or absent array it raises `ValueError`; otherwise it returns the first
element. -/
def TextureTypeToUSDAttribute.get_attr_from_texture_type
    (enable_this_node : Bool) (usd_attribute texture_type : String)
    (asset_paths : Option (List String)) : Except PyErr String :=
  if !enable_this_node then .ok ""
  else
    match asset_paths.getD [] with
    | [] => .error (.valueError ("Can\x27t get texture type using the USD attribute " ++
        usd_attribute ++ " and texture type " ++ texture_type))
    | p :: _ => .ok p

/-- C9. The texture-type-to-USD-attribute lookup returns exactly the first
element of the response's `asset_paths` array, and fails with a `ValueError`
when that array is empty or absent. -/
theorem c9_first_asset_path (u t p : String) (asset_paths : Option (List String))
    (ps : List String) :
    (asset_paths = some (p :: ps) →
      TextureTypeToUSDAttribute.get_attr_from_texture_type true u t asset_paths = .ok p) ∧
    (asset_paths = none ∨ asset_paths = some [] →
      TextureTypeToUSDAttribute.get_attr_from_texture_type true u t asset_paths =
        .error (.valueError ("Can\x27t get texture type using the USD attribute " ++
          u ++ " and texture type " ++ t))) := by
  constructor
  · intro h
    subst h
    rfl
  · rintro (h | h) <;> subst h <;> rfl

/-- C9 witness: concrete lookups with a two-element `asset_paths` array and
with an absent array. -/
theorem c9_first_asset_path_witness :
    TextureTypeToUSDAttribute.get_attr_from_texture_type true
      "/RootNode/Looks/mat/Shader.inputs:diffuse_texture" "NORMAL_OGL"
      (some ["/a/normal.dds", "/a/other.dds"]) = .ok "/a/normal.dds" ∧
    TextureTypeToUSDAttribute.get_attr_from_texture_type true
      "/RootNode/Looks/mat/Shader.inputs:diffuse_texture" "NORMAL_OGL" none =
      .error (.valueError ("Can\x27t get texture type using the USD attribute " ++
        "/RootNode/Looks/mat/Shader.inputs:diffuse_texture" ++
        " and texture type " ++ "NORMAL_OGL")) :=
  ⟨(c9_first_asset_path "/RootNode/Looks/mat/Shader.inputs:diffuse_texture" "NORMAL_OGL"
      "/a/normal.dds" (some ["/a/normal.dds", "/a/other.dds"]) ["/a/other.dds"]).1 rfl,
   (c9_first_asset_path "/RootNode/Looks/mat/Shader.inputs:diffuse_texture" "NORMAL_OGL"
      "/a/normal.dds" none ["/a/other.dds"]).2 (Or.inl rfl)⟩

/-! ### Enable-gated node execution

Every gated node module imports `add_context_input_enabled_and_output` from
`.common`; the `common.py` at hand holds only the earlier, ungated generation
of that decorator (`add_context_input_and_output`), so the gated wrapper
itself is modelled from the spec.  The gate branches
(`if not self.enable_this_node: return ...`) are in the node sources. -/

/-- Modelled from the spec: the execution-function wrapping of
`add_context_input_enabled_and_output`, which is imported by the node modules
but missing from the sources at hand.  Per spec §4.1 the wrapper extracts the
context value (and the enable flag, stored on the instance as
`enable_this_node` for the body to branch on) from the keyword arguments,
invokes the body, and re-attaches the consumed context as the first element
of the result tuple; the skip on a false flag is performed by each body, not
by the wrapper. -/
def wrapWithContext (ctx : RemixContext) (body : List Effect × Except PyErr α) :
    List Effect × Except PyErr (RemixContext × α) :=
  (body.1, body.2.map (fun out => (ctx, out)))

/-- The layer-listing request URL (src/nodes/layers.py lines 324-333): the
sublayers endpoint when a (truthy) `parent_layer_id` is given, else the
layers endpoint.  `quote` abstracts `quote_plus ∘ posix`. -/
def getLayersUrl (ctx : RemixContext) (quote : String → String)
    (parent_layer_id : Option String) : String :=
  match parent_layer_id with
  | some p => "http://" ++ ctx.address ++ ":" ++ toString ctx.port ++
      "/stagecraft/layers/" ++ quote p ++ "/sublayers"
  | none => "http://" ++ ctx.address ++ ":" ++ toString ctx.port ++ "/stagecraft/layers"

/-- `GetLayers.RETURN_TYPES` as declared before the wrapper prepends the
context output (src/nodes/layers.py lines 287-291). -/
def GetLayers.RETURN_TYPES : List String := ["STRING", "STRING", "BOOLEAN"]

/-- `GetLayers.OUTPUT_IS_LIST` (src/nodes/layers.py lines 292-296). -/
def GetLayers.OUTPUT_IS_LIST : List Bool := [true, true, false]

/-- `GetLayers.execute` with the enable gate and the observable effects made
explicit (src/nodes/layers.py lines 307-360): disabled, it returns
`([], [], False)` before building the request; enabled, it issues the GET,
checks the status, and parses as `GetLayers.execute`. -/
def GetLayers.run (ctx : RemixContext) (enable_this_node : Bool)
    (quote norm : String → String) (flt : Option (String → Bool))
    (sublayers crash : Bool) (parent_layer_id : Option String)
    (resp : HttpResponse) (layers : List LayerRec) :
    List Effect × Except PyErr (List String × List String × Bool) :=
  if !enable_this_node then ([], .ok ([], [], false))
  else
    ([.httpGet (getLayersUrl ctx quote parent_layer_id)],
     match check_response_status_code resp with
     | .error e => .error e
     | .ok _ => GetLayers.execute norm flt sublayers crash layers)

/-- `GetLayers` as wrapped by the (spec-modelled) gated context decorator. -/
def GetLayers.runWrapped (ctx : RemixContext) (enable_this_node : Bool)
    (quote norm : String → String) (flt : Option (String → Bool))
    (sublayers crash : Bool) (parent_layer_id : Option String)
    (resp : HttpResponse) (layers : List LayerRec) :
    List Effect × Except PyErr (RemixContext × (List String × List String × Bool)) :=
  wrapWithContext ctx
    (GetLayers.run ctx enable_this_node quote norm flt sublayers crash parent_layer_id
      resp layers)

/-- The texture-listing request URL (src/nodes/textures.py line 155). -/
def getTexturesUrl (ctx : RemixContext) : String :=
  "http://" ++ ctx.address ++ ":" ++ toString ctx.port ++ "/stagecraft/textures"

/-- `GetTextures.RETURN_TYPES` (src/nodes/textures.py lines 113-117). -/
def GetTextures.RETURN_TYPES : List String := ["STRING", "STRING", "IMAGE"]

/-- `GetTextures.OUTPUT_IS_LIST` (src/nodes/textures.py lines 118-122). -/
def GetTextures.OUTPUT_IS_LIST : List Bool := [true, true, true]

/-- `GetTextures.get_texture_prims_assets` (src/nodes/textures.py lines
132-183) with the gate and effects explicit.  `textures` is the parsed
`textures` response field of `(usd_attr, texture_path)` pairs (`none` when
absent); `diskExists` abstracts `pathlib.Path(...).exists()`; `stem`
abstracts `pathlib.Path(...).stem`; a loaded image tensor is represented by
its source path (the pixel decoding is irrelevant to every claim).  The empty
`ValueError` messages carry the URL and params in the source; the texts are
abridged here. -/
def GetTextures.get_texture_prims_assets (ctx : RemixContext)
    (enable_this_node : Bool) (resp : HttpResponse)
    (textures : Option (List (String × String)))
    (diskExists : String → Bool) (stem : String → String) :
    List Effect × Except PyErr (List String × List String × List String) :=
  if !enable_this_node then ([], .ok ([], [], []))
  else
    ([.httpGet (getTexturesUrl ctx)],
     match check_response_status_code resp with
     | .error e => .error e
     | .ok _ =>
         let ts := textures.getD []
         if ts.isEmpty then
           .error (.valueError "No textures found. Please check the parameters of your node.")
         else
           let found := ts.filter (fun p => diskExists p.2)
           if found.isEmpty then
             .error (.valueError ("No textures found on disk. paths: " ++
               String.intercalate ", " (ts.map Prod.snd)))
           else
             .ok (found.map Prod.fst, found.map (fun p => stem p.2), found.map Prod.snd))

/-- `GetTextures` as wrapped by the (spec-modelled) gated context decorator. -/
def GetTextures.runWrapped (ctx : RemixContext) (enable_this_node : Bool)
    (resp : HttpResponse) (textures : Option (List (String × String)))
    (diskExists : String → Bool) (stem : String → String) :
    List Effect × Except PyErr (RemixContext × (List String × List String × List String)) :=
  wrapWithContext ctx
    (GetTextures.get_texture_prims_assets ctx enable_this_node resp textures diskExists stem)

/-- The layer-types request URL (src/nodes/layers.py line 56). -/
def layerTypesUrl (ctx : RemixContext) : String :=
  "http://" ++ ctx.address ++ ":" ++ toString ctx.port ++ "/stagecraft/layers/types"

/-- `LayerType.get_layer_type` (src/nodes/layers.py lines 213-217) with the
gate and effects explicit: the single scalar-string-output gated node cited
by the spec's neutral-output rule (`("",)` when disabled). -/
def LayerType.get_layer_type (ctx : RemixContext) (enable_this_node : Bool)
    (layer_type : String) (resp : HttpResponse) (serverTypes : List String) :
    List Effect × Except PyErr String :=
  if !enable_this_node then ([], .ok "")
  else
    ([.httpGet (layerTypesUrl ctx)],
     match check_response_status_code resp with
     | .error e => .error e
     | .ok _ =>
         match validate_layer_types [layer_type] serverTypes with
         | .error e => .error e
         | .ok _ => .ok layer_type)

/-- `LayerType` as wrapped by the (spec-modelled) gated context decorator. -/
def LayerType.runWrapped (ctx : RemixContext) (enable_this_node : Bool)
    (layer_type : String) (resp : HttpResponse) (serverTypes : List String) :
    List Effect × Except PyErr (RemixContext × String) :=
  wrapWithContext ctx
    (LayerType.get_layer_type ctx enable_this_node layer_type resp serverTypes)

/-- C2. Invoking an enable-gated node with the flag false performs zero
observable effects and returns the neutral result of the declared output
arity and types — `([], [], False)` for `GetLayers`, `([], [], [])` for
`GetTextures`, `""` for the scalar-string node — with the consumed context
passed through as the first output. -/
theorem c2_disabled_no_effects_neutral_outputs (ctx : RemixContext)
    (quote norm stem : String → String) (flt : Option (String → Bool))
    (sublayers crash : Bool) (parent_layer_id : Option String)
    (resp : HttpResponse) (layers : List LayerRec)
    (textures : Option (List (String × String))) (diskExists : String → Bool)
    (layer_type : String) (serverTypes : List String) :
    GetLayers.runWrapped ctx false quote norm flt sublayers crash parent_layer_id
        resp layers = ([], .ok (ctx, ([], [], false))) ∧
    GetTextures.runWrapped ctx false resp textures diskExists stem =
      ([], .ok (ctx, ([], [], []))) ∧
    LayerType.runWrapped ctx false layer_type resp serverTypes = ([], .ok (ctx, "")) ∧
    GetLayers.RETURN_TYPES.length = 3 ∧ GetLayers.OUTPUT_IS_LIST = [true, true, false] ∧
    GetTextures.RETURN_TYPES.length = 3 ∧ GetTextures.OUTPUT_IS_LIST = [true, true, true] := by
  refine ⟨rfl, rfl, rfl, rfl, rfl, rfl, rfl⟩

/-! ### `ingestion.py`: `IngestTexture.ingest_texture`

The body (src/nodes/ingestion.py lines 89-169) resolves the output folder
(override folder, or the `stagecraft/assets/default-directory` call), checks
it exists, saves the texture to a temporary PNG (`img.save(tmp_image_path)`),
POSTs the ingest payload, calls `os.remove(str(tmp_image_path))`, and only
then checks the response status and walks `completed_schemas` for the
`ConvertToDDS` plugin's `ingestion_output` data flow.  There is no
`try`/`finally`: the removal runs only if `requests.post` returned. -/

/-- Inputs and external world of one `ingest_texture` invocation.
`post_response` is the outcome of the `requests.post` to
`ingestcraft/mass-validator/queue/material`: `none` models the request
itself raising a transport error (connection refused, timeout);
`some (status, detail, results)` a returned response with its status code,
its body's `detail` field, and the `output_data` list the
`completed_schemas` walk extracts for the `ConvertToDDS` /
`ingestion_output` data flow (`none` when the walk finds nothing).
`folder_exists` models the directory-existence checks and `result_exists`
the existence check on the ingested result file. -/
structure IngestWorld where
  texture_name : String
  enable_override_output_folder : Bool
  override_output_folder : String
  default_dir_status : Nat
  default_dir_detail : Option String
  default_dir_asset_path : String
  folder_exists : String → Bool
  tmp_image_path : String
  post_response : Option (Nat × Option String × Option (List String))
  result_exists : String → Bool

/-- Observable outcome of one invocation: whether the temporary image file
was created, whether it still exists on disk when the node returns or
raises, and the returned texture path or the exception. -/
structure IngestOutcome where
  tmp_created : Bool
  tmp_exists_after : Bool
  result : Except PyErr String
  deriving Repr

/-- Output-folder resolution (src/nodes/ingestion.py lines 99-112). -/
def IngestTexture.resolveOutputFolder (w : IngestWorld) : Except PyErr String :=
  if w.enable_override_output_folder then
    if !(w.folder_exists w.override_output_folder) then
      .error (.fileNotFoundError "Can\x27t overwrite output folder, folder doesn\x27t exist.")
    else .ok w.override_output_folder
  else
    if w.default_dir_status ≠ 200 then
      .error (.valueError (w.default_dir_detail.getD "Wrong request value"))
    else .ok w.default_dir_asset_path

/-- `IngestTexture.ingest_texture` (src/nodes/ingestion.py lines 89-169). -/
def IngestTexture.ingest_texture (w : IngestWorld) : IngestOutcome :=
  match IngestTexture.resolveOutputFolder w with
  | .error e => ⟨false, false, .error e⟩
  | .ok folder =>
      if !(w.folder_exists folder) then
        ⟨false, false, .error (.valueError ("Output folder doesn\x27t exist: " ++ folder))⟩
      else
        match w.post_response with
        | none => ⟨true, true, .error .transportError⟩
        | some (status, detail, results) =>
            if status ≠ 200 then
              ⟨true, false, .error (.valueError (detail.getD "Wrong request value"))⟩
            else
              match results.getD [] with
              | [] => ⟨true, false, .error (.valueError
                  ("Can\x27t get the ingested texture with name " ++ w.texture_name ++
                    " from the folder " ++ folder))⟩
              | rp :: _ =>
                  if !(w.result_exists rp) then
                    ⟨true, false, .error (.fileNotFoundError ("Can\x27t find the texture " ++ rp))⟩
                  else ⟨true, false, .ok rp⟩

/-- A run in which the temporary PNG is written and the ingest POST raises a
transport error. -/
def ingestLeakWorld : IngestWorld where
  texture_name := "wood"
  enable_override_output_folder := true
  override_output_folder := "/proj/assets"
  default_dir_status := 200
  default_dir_detail := none
  default_dir_asset_path := "/proj/assets"
  folder_exists := fun _ => true
  tmp_image_path := "/comfy/output/wood.png"
  post_response := none
  result_exists := fun _ => false

/-- A run identical to `ingestLeakWorld` except the ingest POST returns a
successful response. -/
def ingestOkWorld : IngestWorld where
  texture_name := "wood"
  enable_override_output_folder := true
  override_output_folder := "/proj/assets"
  default_dir_status := 200
  default_dir_detail := none
  default_dir_asset_path := "/proj/assets"
  folder_exists := fun _ => true
  tmp_image_path := "/comfy/output/wood.png"
  post_response := some (200, none, some ["/proj/assets/wood.dds"])
  result_exists := fun _ => true

/-- C8 counterexample: when the ingest POST itself raises a transport error
(connection refused) after the temporary PNG was written, `os.remove` is
never reached — the invocation created the temporary file, propagates the
transport error, and the file still exists on disk, falsifying the claim for
this failure path. -/
theorem c8_counterexample_transport_error_leaks_tmp_file :
    (IngestTexture.ingest_texture ingestLeakWorld).tmp_created = true ∧
    (IngestTexture.ingest_texture ingestLeakWorld).tmp_exists_after = true ∧
    (IngestTexture.ingest_texture ingestLeakWorld).result = .error .transportError := by
  refine ⟨rfl, rfl, rfl⟩

/-- C8 amended: on every invocation in which the ingest POST returns an HTTP
response — the success path and every failure path after the response
(non-200 status, missing ingestion results, missing result file) — the
temporary image file no longer exists when the node returns; only a
transport-level exception raised by the POST itself skips the removal. -/
theorem c8_amended_tmp_removed_when_post_returns (w : IngestWorld)
    (r : Nat × Option String × Option (List String))
    (h : w.post_response = some r) :
    (IngestTexture.ingest_texture w).tmp_exists_after = false := by
  obtain ⟨st, dt, rs⟩ := r
  unfold IngestTexture.ingest_texture
  cases hres : IngestTexture.resolveOutputFolder w with
  | error e => rfl
  | ok folder =>
      by_cases hfe : w.folder_exists folder = true
      · simp only [hfe, Bool.not_true, Bool.false_eq_true, if_false, h]
        by_cases hst : st ≠ 200
        · simp [hst]
        · simp only [hst, if_false]
          cases hrs : rs.getD [] with
          | nil => rfl
          | cons rp rest =>
              by_cases hre : w.result_exists rp = true
              · simp [hre]
              · simp [hre]
      · have hfe' : w.folder_exists folder = false := by
          cases hh : w.folder_exists folder
          · rfl
          · exact absurd hh hfe
        simp [hfe']

/-- C8 amended witness: the successful concrete run removes the temporary
file. -/
theorem c8_amended_witness :
    (IngestTexture.ingest_texture ingestOkWorld).tmp_exists_after = false :=
  c8_amended_tmp_removed_when_post_returns ingestOkWorld
    (200, none, some ["/proj/assets/wood.dds"]) rfl

/-! ### `__init__.py`: the node registry

`NODE_CLASS_MAPPINGS` maps each stable identifier to a node class and
`NODE_DISPLAY_NAME_MAPPINGS` to a display name (src/nodes/__init__.py lines
52-107).  A node class is represented by its class name; the two dict
literals are transcribed entry for entry in source order. -/

/-- `NODE_CLASS_MAPPINGS` (src/nodes/__init__.py lines 52-78). -/
def NODE_CLASS_MAPPINGS : List (String × String) :=
  [("RTXRemixCreateLayer", "CreateLayer"),
   ("RTXRemixDefineLayerId", "DefineLayerId"),
   ("RTXRemixDeleteFile", "DeleteFile"),
   ("RTXRemixEndContext", "EndContext"),
   ("RTXRemixGetEditTarget", "GetEditTarget"),
   ("RTXRemixGetLayers", "GetLayers"),
   ("RTXRemixGetTextures", "GetTextures"),
   ("RTXRemixIngestTexture", "IngestTexture"),
   ("RTXRemixInvertBool", "InvertBool"),
   ("RTXRemixLayerType", "LayerType"),
   ("RTXRemixLayerTypes", "LayerTypes"),
   ("RTXRemixMuteLayer", "MuteLayer"),
   ("RTXRemixRemoveLayer", "RemoveLayer"),
   ("RTXRemixRestAPIDetails", "RestAPIDetails"),
   ("RTXRemixSaveLayer", "SaveLayer"),
   ("RTXRemixSetEditTarget", "SetEditTarget"),
   ("RTXRemixSetTexture", "SetTexture"),
   ("RTXRemixStartContext", "StartContext"),
   ("RTXRemixStringConcatenate", "StringConcatenate"),
   ("RTXRemixStringConstant", "StringConstant"),
   ("RTXRemixStrToList", "StrToList"),
   ("RTXRemixSwitch", "Switch"),
   ("RTXRemixTexturesType", "TexturesType"),
   ("RTXRemixTexturesTypes", "TexturesTypes"),
   ("RTXRemixTextureTypeToUSDAttribute", "TextureTypeToUSDAttribute")]

/-- `NODE_DISPLAY_NAME_MAPPINGS` (src/nodes/__init__.py lines 81-107). -/
def NODE_DISPLAY_NAME_MAPPINGS : List (String × String) :=
  [("RTXRemixCreateLayer", "RTX Remix Create Layer"),
   ("RTXRemixDefineLayerId", "RTX Remix Define Layer ID"),
   ("RTXRemixDeleteFile", "RTX Remix Delete File"),
   ("RTXRemixEndContext", "RTX Remix End Context"),
   ("RTXRemixGetEditTarget", "RTX Remix Get Edit Target"),
   ("RTXRemixGetLayers", "RTX Remix Get Layers"),
   ("RTXRemixGetTextures", "RTX Remix Get Textures"),
   ("RTXRemixIngestTexture", "RTX Remix Ingest Texture"),
   ("RTXRemixInvertBool", "RTX Remix Invert Boolean Value"),
   ("RTXRemixLayerType", "RTX Remix Layer Type"),
   ("RTXRemixLayerTypes", "RTX Remix Layer Types"),
   ("RTXRemixMuteLayer", "RTX Remix Mute Layer"),
   ("RTXRemixRemoveLayer", "RTX Remix Remove Layer"),
   ("RTXRemixRestAPIDetails", "RTX Remix Rest API Details"),
   ("RTXRemixSaveLayer", "RTX Remix Save Layer"),
   ("RTXRemixSetEditTarget", "RTX Remix Set Edit Target"),
   ("RTXRemixSetTexture", "RTX Remix Set Texture"),
   ("RTXRemixStartContext", "RTX Remix Start Context"),
   ("RTXRemixStringConcatenate", "RTX Remix String Concatenate"),
   ("RTXRemixStringConstant", "RTX Remix String Constant"),
   ("RTXRemixStrToList", "RTX Remix String to List"),
   ("RTXRemixSwitch", "RTX Remix Switch"),
   ("RTXRemixTexturesType", "RTX Remix Texture Type"),
   ("RTXRemixTexturesTypes", "RTX Remix Texture Types"),
   ("RTXRemixTextureTypeToUSDAttribute", "RTX Remix Texture Type To USD Attribute")]

/-- C10. The class registry and the display-name registry are defined over
exactly the same identifiers in the same order, and neither contains a
duplicate identifier, so each identifier maps to exactly one node class and
exactly one display name. -/
theorem c10_registry_mappings_consistent :
    NODE_CLASS_MAPPINGS.map Prod.fst = NODE_DISPLAY_NAME_MAPPINGS.map Prod.fst ∧
    (NODE_CLASS_MAPPINGS.map Prod.fst).Nodup ∧
    (NODE_DISPLAY_NAME_MAPPINGS.map Prod.fst).Nodup := by
  refine ⟨rfl, by decide, by decide⟩
